import Mathlib

/-!
Verification development for a character-based AI chat backend.

The definitions below are shallow embeddings of the Python routers
`app/routers/chat.py` and `app/routers/characters.py`:

* the retry/backoff loop of `generate_ai_response`;
* the conversation-scoped semantic retrieval `retrieve_relevant_messages`;
* the persona prompt builder `build_character_system_message` and the
  prompt assembly done by `send_message`;
* the persistence flow of `send_message` (user message, AI call,
  assistant message, each in its own committed transaction);
* conversation creation `start_conversation`;
* the character CRUD handlers `get_characters`, `get_character`,
  `update_character`, `delete_character` and their list-field
  JSON (de)serialization helpers `serialize_list_fields` /
  `deserialize_list_fields` (modelled down to the character level of
  Python's `json.dumps` / `json.loads` on arrays of strings).

External effects (the OpenAI client, ChromaDB, the SQL session) are made
explicit: the provider's behaviour is an oracle `Nat → AttemptOutcome`
(outcome of the i-th completion attempt), the vector store's answers are
list parameters, and the relational store is explicit state threaded
through each handler.
-/

namespace AIChat

/-- Outcome of one call to `client.chat.completions.create`, classified the
way the `except` clauses of `generate_ai_response` classify exceptions:
success, `openai.BadRequestError`, one of the transient provider errors
(`openai.APIError`, `openai.APIConnectionError`, `openai.RateLimitError`),
or any other unexpected exception. -/
inductive AttemptOutcome where
  | success (content : String)
  | badRequest (message : String)
  | transient (message : String)
  | other (message : String)
deriving Repr, DecidableEq

/-- Result of `generate_ai_response`: the returned content, or a raised
`HTTPException` with its status code and detail. -/
inductive AIResult where
  | ok (content : String)
  | httpError (statusCode : Nat) (detail : String)
deriving Repr, DecidableEq

/-- `max_retries = 3` in `generate_ai_response`. -/
def maxRetries : Nat := 3

/-- `base_wait_time = 2` in `generate_ai_response`. -/
def baseWaitTime : Nat := 2

/-- The `while True` loop of `generate_ai_response`. `provider i` is the
outcome of the i-th attempt. The state is the current attempt index, the
current `retry_count`, and the list of `asyncio.sleep` wait times performed
so far (in seconds, in order). The loop exits after at most
`maxRetries + 1` attempts (each transient failure increments `retry_count`,
and `retry_count > max_retries` exits), so `maxRetries + 1` units of fuel
make the fuel-exhaustion branch unreachable; we prove this below
(`generateAIResponseGo_fuel_unreachable`). On a transient failure the wait
is `base_wait_time * 2 ^ (retry_count - 1)` for the just-incremented
`retry_count`, i.e. `baseWaitTime * 2 ^ retryCount` for the pre-increment
count. -/
def generateAIResponseGo (provider : Nat → AttemptOutcome) :
    Nat → Nat → Nat → List Nat → AIResult × List Nat
  | 0, _, _, waits => (AIResult.httpError 503 "unreachable: fuel exhausted", waits)
  | fuel + 1, idx, retryCount, waits =>
    match provider idx with
    | AttemptOutcome.success c => (AIResult.ok c, waits)
    | AttemptOutcome.badRequest m =>
        (AIResult.httpError 400 ("Invalid request to AI provider: " ++ m), waits)
    | AttemptOutcome.other m =>
        (AIResult.httpError 503 ("Error communicating with AI provider: " ++ m), waits)
    | AttemptOutcome.transient m =>
        if maxRetries < retryCount + 1 then
          (AIResult.httpError 503
            ("AI provider unavailable after multiple attempts: " ++ m), waits)
        else
          generateAIResponseGo provider fuel (idx + 1) (retryCount + 1)
            (waits ++ [baseWaitTime * 2 ^ retryCount])

/-- One message of the list handed to the chat-completion API
(a `{"role": ..., "content": ...}` dictionary). -/
structure OAMessage where
  role : String
  content : String
deriving Repr, DecidableEq

/-- `generate_ai_response(messages, model)`: run the retry loop. The
`messages` and `model` arguments are forwarded to the provider call and do
not influence the control flow of the loop; the provider's behaviour is
the oracle `provider`. Returns the result together with the list of
backoff waits performed. -/
def generateAIResponse (messages : List OAMessage) (model : String)
    (provider : Nat → AttemptOutcome) : AIResult × List Nat :=
  let _ := messages
  let _ := model
  generateAIResponseGo provider (maxRetries + 1) 0 0 []

/-- One entry of the ChromaDB `conversations` collection, as written by
`store_message_embedding`: a document (the message text) with metadata
`{"conversation_id": ..., "role": ...}`. The embedding vector and the
unique id play no role in the filtering logic and are omitted. -/
structure StoredEmbedding where
  conversation_id : Nat
  role : String
  content : String
deriving Repr, DecidableEq

/-- A `{"role": ..., "content": ...}` record as produced by
`retrieve_relevant_messages` from a stored embedding's metadata and
document. -/
def toRetrieved (e : StoredEmbedding) : OAMessage :=
  { role := e.role, content := e.content }

/-- `retrieve_relevant_messages(conversation_id, query, top_k)`.

`queryResults` is the (document, metadata) list returned by
`collection.query(..., n_results=top_k * 2)` for the query embedding: the
globally most similar stored entries, similarity-ordered, not partitioned
by conversation. `peekResults` is the list returned by
`collection.peek(top_k * 2)`. The function keeps only entries whose
metadata `conversation_id` equals the requested one; if none survive it
falls back to the peeked list filtered the same way; either way at most
`top_k` records are returned. -/
def retrieveRelevantMessages (conversationId : Nat) (topK : Nat)
    (queryResults : List StoredEmbedding) (peekResults : List StoredEmbedding) :
    List OAMessage :=
  let filteredResults :=
    (queryResults.filter (fun e => e.conversation_id == conversationId)).map toRetrieved
  if filteredResults.isEmpty then
    let filteredRecent :=
      (peekResults.filter (fun e => e.conversation_id == conversationId)).map toRetrieved
    filteredRecent.take topK
  else
    filteredResults.take topK

/-- A list-valued character column (`personality_traits`, `quirks_habits`,
`example_sentences`). In the database the column holds text (`raw`, a JSON
encoding, or `null` for SQL NULL); after `deserialize_list_fields` a
successfully decoded column holds an actual Python list (`parsed`). Only
JSON arrays of strings are representable in `parsed`: that is the only
shape `serialize_list_fields` ever writes, and the deserializer below
leaves any other stored text as `raw`. -/
inductive ListFieldVal where
  | null
  | raw (s : String)
  | parsed (l : List String)
deriving Repr, DecidableEq

/-- Python truthiness of a list-field value (`if char.personality_traits:`):
`None` and the empty string and the empty list are falsy. -/
def ListFieldVal.truthy : ListFieldVal → Bool
  | ListFieldVal.null => false
  | ListFieldVal.raw s => !s.isEmpty
  | ListFieldVal.parsed l => !l.isEmpty

/-- The text interpolated for a list-field value inside an f-string
(`f"...{character.personality_traits}..."`). Characters loaded from the
database always carry `null` or `raw` here; for a `parsed` list Python
would interpolate the list's `repr`. -/
def ListFieldVal.text : ListFieldVal → String
  | ListFieldVal.null => "None"
  | ListFieldVal.raw s => s
  | ListFieldVal.parsed l =>
      "[" ++ String.intercalate ", " (l.map (fun s => "'" ++ s ++ "'")) ++ "]"

/-- The `Character` ORM row (fields per `schemas/character.py` and the
column accesses in the routers): `name` plus optional descriptive text
columns, three list-valued columns stored as text, the personal flag and
the owning user. -/
structure Character where
  id : Nat
  name : String
  nationality : Option String
  profession : Option String
  description : Option String
  image_url : Option String
  background : Option String
  personality_traits : ListFieldVal
  motivations : Option String
  quirks_habits : ListFieldVal
  example_sentences : ListFieldVal
  is_personal_character : Bool
  owner_id : Option Nat
deriving Repr, DecidableEq

/-- Python truthiness of an optional text column (`if character.nationality:`):
falsy when NULL or the empty string. -/
def optTruthy : Option String → Bool
  | none => false
  | some s => !s.isEmpty

/-- The interpolated text of an optional column (`None` renders as "None";
the truthiness guards ensure only present values are ever interpolated). -/
def optText : Option String → String
  | none => "None"
  | some s => s

/-- `build_character_system_message(character)`: a pure function of the
character's attributes. Starts with the name line, appends one line per
truthy optional attribute, then the fixed closing instruction, joined with
newlines. -/
def buildCharacterSystemMessage (character : Character) : String :=
  let lines := ["My name is **" ++ character.name ++ "**."]
  let lines := if optTruthy character.nationality then
      lines ++ ["I am " ++ optText character.nationality ++ "."] else lines
  let lines := if optTruthy character.profession then
      lines ++ ["I work as " ++ optText character.profession ++ "."] else lines
  let lines := if optTruthy character.background then
      lines ++ ["Here's my story: " ++ optText character.background] else lines
  let lines := if character.personality_traits.truthy then
      lines ++ ["People describe me as " ++ character.personality_traits.text ++ "."] else lines
  let lines := if optTruthy character.motivations then
      lines ++ ["What drives me? " ++ optText character.motivations ++ "."] else lines
  let lines := if character.quirks_habits.truthy then
      lines ++ ["I have a few quirks: " ++ character.quirks_habits.text ++ "."] else lines
  let lines := if character.example_sentences.truthy then
      lines ++ ["Here's how I talk: " ++ character.example_sentences.text] else lines
  let lines := lines ++
    ["I will respond as myself—**" ++ character.name ++
     "**—in a way that aligns with my personality, experiences, and emotions. Before I respond, I will absolutely check if I have enough context and check if relevant details exist in past messages. If I am not sure, I will ask instead of responding immediately. I won't break character, and I will express myself naturally, since thiss is a real conversation."]
  String.intercalate "\n" lines

/-- The prompt list assembled by `send_message`: the system message built
from the character, then the retrieved context messages (via
`openai_messages.extend`), then the new user message (via `append`). -/
def assemblePrompt (character : Character) (relevantMessages : List OAMessage)
    (userText : String) : List OAMessage :=
  let openaiMessages := [OAMessage.mk "system" (buildCharacterSystemMessage character)]
  let openaiMessages := openaiMessages ++ relevantMessages
  openaiMessages ++ [OAMessage.mk "user" userText]

/-- Value of a lowercase/uppercase hex digit character, `none` otherwise
(as accepted by `json.loads` in `\uXXXX` escapes). -/
def hexVal (c : Char) : Option Nat :=
  if 48 ≤ c.toNat ∧ c.toNat ≤ 57 then some (c.toNat - 48)
  else if 97 ≤ c.toNat ∧ c.toNat ≤ 102 then some (c.toNat - 87)
  else if 65 ≤ c.toNat ∧ c.toNat ≤ 70 then some (c.toNat - 55)
  else none

/-- The lowercase hex digit for a value below 16, as emitted by
`json.dumps` in `\uXXXX` escapes. -/
def hexDigitChar (n : Nat) : Char :=
  if n < 10 then Char.ofNat (48 + n) else Char.ofNat (87 + n)

/-- Four lowercase hex digits of a value below `0x10000`. -/
def toHex4 (n : Nat) : List Char :=
  [hexDigitChar (n / 4096 % 16), hexDigitChar (n / 256 % 16),
   hexDigitChar (n / 16 % 16), hexDigitChar (n % 16)]

/-- How `json.dumps` (default `ensure_ascii=True`) renders one character
inside a JSON string literal: the two-character escapes for quote,
backslash, backspace, form feed, newline, carriage return and tab;
printable ASCII verbatim; `\uXXXX` for every other character of the Basic
Multilingual Plane; and a `\uXXXX\uXXXX` surrogate pair for characters
above `0xFFFF`. -/
def escapeChar (c : Char) : List Char :=
  if c = '"' then ['\\', '"']
  else if c = '\\' then ['\\', '\\']
  else if c = '\x08' then ['\\', 'b']
  else if c = '\x0c' then ['\\', 'f']
  else if c = '\n' then ['\\', 'n']
  else if c = '\r' then ['\\', 'r']
  else if c = '\t' then ['\\', 't']
  else if 32 ≤ c.toNat ∧ c.toNat ≤ 126 then [c]
  else if c.toNat < 65536 then '\\' :: 'u' :: toHex4 c.toNat
  else
    ('\\' :: 'u' :: toHex4 (55296 + (c.toNat - 65536) / 1024)) ++
    ('\\' :: 'u' :: toHex4 (56320 + (c.toNat - 65536) % 1024))

/-- The characters of a JSON string literal's body (no surrounding
quotes): each character escaped as `json.dumps` escapes it. -/
def encodeStringBody : List Char → List Char
  | [] => []
  | c :: cs => escapeChar c ++ encodeStringBody cs

/-- A full JSON string literal: quote, escaped body, quote. -/
def encodeJSONString (s : List Char) : List Char :=
  '"' :: encodeStringBody s ++ ['"']

/-- Join item encodings with `", "`, the default `json.dumps` item
separator. -/
def sepJoin : List (List Char) → List Char
  | [] => []
  | [x] => x
  | x :: xs => x ++ ',' :: ' ' :: sepJoin xs

/-- `serialize_list_fields`' conversion of one list field:
`json.dumps(value)` for a Python list of strings — a `[`, the `", "`-joined
string literals, a `]`. -/
def serializeStringList (l : List String) : String :=
  String.mk ('[' :: sepJoin (l.map (fun s => encodeJSONString s.data)) ++ [']'])

/-- JSON insignificant whitespace (accepted by `json.loads` between
tokens). -/
def isJsonSpace (c : Char) : Bool :=
  c = ' ' || c = '\t' || c = '\n' || c = '\r'

/-- Drop leading JSON whitespace. -/
def skipSpaces : List Char → List Char
  | [] => []
  | c :: cs => if isJsonSpace c then skipSpaces cs else c :: cs

/-- The character denoted by a single-character escape `\e` in a JSON
string literal (`json.loads` accepts exactly these eight). -/
def escapeCharInv (e : Char) : Option Char :=
  if e = '"' then some '"'
  else if e = '\\' then some '\\'
  else if e = '/' then some '/'
  else if e = 'b' then some '\x08'
  else if e = 'f' then some '\x0c'
  else if e = 'n' then some '\n'
  else if e = 'r' then some '\r'
  else if e = 't' then some '\t'
  else none

/-- The value of four hex digit characters, `none` if any is not a hex
digit. -/
def hex4 (a b c d : Char) : Option Nat :=
  match hexVal a, hexVal b, hexVal c, hexVal d with
  | some va, some vb, some vc, some vd => some (((va * 16 + vb) * 16 + vc) * 16 + vd)
  | _, _, _, _ => none

/-- Decode a `\uXXXX` escape (input positioned after the `\u`), as
`json.loads` does: four hex digits; a high surrogate must be followed by
`\u` and a low surrogate, the pair decoding to one supplementary
character. A lone surrogate — accepted by `json.loads` but yielding a
Python string with no Unicode-scalar-value counterpart — is
unrepresentable as a Lean `Char` and decodes as `none` here; neither
`json.dumps` output nor any value this backend stores contains one.
Returns the decoded character and the remaining input. -/
def parseUnicodeEscape : List Char → Option (Char × List Char)
  | h1 :: h2 :: h3 :: h4 :: rest =>
    match hex4 h1 h2 h3 h4 with
    | none => none
    | some n =>
      if 55296 ≤ n ∧ n < 56320 then
        match rest with
        | b1 :: b2 :: g1 :: g2 :: g3 :: g4 :: rest2 =>
          if b1 = '\\' ∧ b2 = 'u' then
            match hex4 g1 g2 g3 g4 with
            | none => none
            | some m =>
              if 56320 ≤ m ∧ m < 57344 then
                some (Char.ofNat (65536 + (n - 55296) * 1024 + (m - 56320)), rest2)
              else none
          else none
        | _ => none
      else if 56320 ≤ n ∧ n < 57344 then none
      else some (Char.ofNat n, rest)
  | _ => none

/-- Decode one escape sequence (input positioned after the backslash):
a single-character escape or a `\uXXXX` escape. -/
def parseEscape : List Char → Option (Char × List Char)
  | [] => none
  | e :: rest =>
    if e = 'u' then parseUnicodeEscape rest
    else
      match escapeCharInv e with
      | none => none
      | some d => some (d, rest)

/-- Fueled worker for the JSON string-literal body parser: plain
characters at or above `0x20`, escapes via `parseEscape`, the closing
quote ends the literal. Every step consumes at least one input character,
so fuel `input length + 1` (what `parseJsonStringBody` passes) is never
exhausted. -/
def parseJsonStringBodyFuel : Nat → List Char → Option (List Char × List Char)
  | 0, _ => none
  | _ + 1, [] => none
  | fuel + 1, c :: rest =>
    if c = '"' then some ([], rest)
    else if c = '\\' then
      match parseEscape rest with
      | none => none
      | some (d, rest2) =>
          (parseJsonStringBodyFuel fuel rest2).map (fun p => (d :: p.1, p.2))
    else if c.toNat < 32 then none
    else (parseJsonStringBodyFuel fuel rest).map (fun p => (c :: p.1, p.2))

/-- Parse the body of a JSON string literal (the opening quote already
consumed) as `json.loads` does. Returns the decoded characters and the
input remaining after the closing quote. -/
def parseJsonStringBody (l : List Char) : Option (List Char × List Char) :=
  parseJsonStringBodyFuel (l.length + 1) l

/-- Parse the comma-separated string elements of a JSON array (positioned
after the opening `[`, with at least one element), up to and including the
closing `]`. Fueled by an upper bound on the number of elements; each
element consumes at least two input characters, so the caller's
`input length + 1` fuel is never exhausted on a successful parse. -/
def parseJsonArrayItems : Nat → List Char → Option (List (List Char) × List Char)
  | 0, _ => none
  | fuel + 1, l =>
    match skipSpaces l with
    | [] => none
    | c :: rest =>
      if c = '"' then
        match parseJsonStringBody rest with
        | none => none
        | some (s, rest2) =>
          match skipSpaces rest2 with
          | [] => none
          | d :: rest3 =>
            if d = ',' then (parseJsonArrayItems fuel rest3).map (fun p => (s :: p.1, p.2))
            else if d = ']' then some ([s], rest3)
            else none
      else none

/-- `json.loads` restricted to the JSON values this backend's list fields
can store: an array of string literals (with arbitrary insignificant
whitespace). Any other JSON text yields `none`; `deserialize_list_fields`
then leaves the stored text untouched, which also covers the
`json.JSONDecodeError` branch of the Python code. -/
def jsonParseStringArray (str : String) : Option (List String) :=
  match skipSpaces str.data with
  | [] => none
  | c :: rest =>
    if c = '[' then
      match skipSpaces rest with
      | [] => none
      | d :: rest2 =>
        if d = ']' then (if (skipSpaces rest2).isEmpty then some [] else none)
        else
          match parseJsonArrayItems (str.data.length + 1) rest with
          | some (items, rest3) =>
              if (skipSpaces rest3).isEmpty then some (items.map (fun cs => String.mk cs))
              else none
          | none => none
    else none

/-- `deserialize_list_fields` on one field: skipped when the stored value
is falsy (`None` or empty text); otherwise `json.loads` — on success the
field becomes the decoded list, on failure (`json.JSONDecodeError`, or any
JSON value other than an array of strings, unrepresentable in
`ListFieldVal`) the stored text is left as-is. -/
def deserializeField : ListFieldVal → ListFieldVal
  | ListFieldVal.null => ListFieldVal.null
  | ListFieldVal.raw s =>
    if s.isEmpty then ListFieldVal.raw s
    else
      match jsonParseStringArray s with
      | some l => ListFieldVal.parsed l
      | none => ListFieldVal.raw s
  | ListFieldVal.parsed l => ListFieldVal.parsed l

/-- `deserialize_list_fields(char)`: deserialize the three list-valued
columns of a character in place. -/
def deserialize_list_fields (char : Character) : Character :=
  { char with
    personality_traits := deserializeField char.personality_traits,
    quirks_habits := deserializeField char.quirks_habits,
    example_sentences := deserializeField char.example_sentences }

/-- `deserialize_list_fields_many(chars)`. -/
def deserialize_list_fields_many (chars : List Character) : List Character :=
  chars.map deserialize_list_fields

/-- The payload of a `PUT /characters/{id}` request after
`char_update.dict(exclude_unset=True)`: `none` means the field was not
sent and is not touched; `some` means it was sent and is applied by
`setattr`. Optional text columns sent as JSON `null` clear the column
(`some none`). -/
structure CharacterUpdatePayload where
  name : Option String := none
  nationality : Option (Option String) := none
  profession : Option (Option String) := none
  description : Option (Option String) := none
  image_url : Option (Option String) := none
  background : Option (Option String) := none
  personality_traits : Option (List String) := none
  motivations : Option (Option String) := none
  quirks_habits : Option (List String) := none
  example_sentences : Option (List String) := none
  is_personal_character : Option Bool := none
  owner_id : Option (Option Nat) := none
deriving Repr, DecidableEq

/-- The body of `update_character` after the ownership check:
`serialize_list_fields(update_data)` turns each sent list into its JSON
text, then each sent field is written onto the row with `setattr`. -/
def applyUpdate (char : Character) (upd : CharacterUpdatePayload) : Character :=
  { char with
    name := upd.name.getD char.name,
    nationality := upd.nationality.getD char.nationality,
    profession := upd.profession.getD char.profession,
    description := upd.description.getD char.description,
    image_url := upd.image_url.getD char.image_url,
    background := upd.background.getD char.background,
    personality_traits :=
      match upd.personality_traits with
      | some l => ListFieldVal.raw (serializeStringList l)
      | none => char.personality_traits,
    motivations := upd.motivations.getD char.motivations,
    quirks_habits :=
      match upd.quirks_habits with
      | some l => ListFieldVal.raw (serializeStringList l)
      | none => char.quirks_habits,
    example_sentences :=
      match upd.example_sentences with
      | some l => ListFieldVal.raw (serializeStringList l)
      | none => char.example_sentences,
    is_personal_character := upd.is_personal_character.getD char.is_personal_character,
    owner_id := upd.owner_id.getD char.owner_id }

/-- Outcome of a handler: the HTTP error raised (status code and detail)
or the successful response value. -/
def HandlerResult (α : Type) : Type := Except (Nat × String) α

/-- `GET /characters/` (`get_characters`): select the rows satisfying
`and_(Character.is_personal_character == False, Character.owner_id ==
current_user.user_id)` (SQL `NULL == x` is not true, so a NULL owner never
matches), then deserialize their list fields. -/
def get_characters (store : List Character) (userId : Nat) : List Character :=
  deserialize_list_fields_many
    (store.filter (fun c => c.is_personal_character == false && c.owner_id == some userId))

/-- `GET /characters/{id}` (`get_character`): primary-key lookup, 404 when
absent, otherwise the row with deserialized list fields — no ownership or
visibility check of any kind. -/
def get_character (store : List Character) (characterId : Nat) :
    HandlerResult Character :=
  match store.find? (fun c => c.id == characterId) with
  | none => Except.error (404, "Character not found")
  | some char => Except.ok (deserialize_list_fields char)

/-- `PUT /characters/{id}` (`update_character`): 404 when absent; 403 when
the row is personal and owned by someone else (`char.is_personal_character
and char.owner_id != current_user.user_id`); otherwise apply the update
and commit. Returns the updated store and the handler outcome. -/
def update_character (store : List Character) (userId : Nat) (characterId : Nat)
    (upd : CharacterUpdatePayload) : List Character × HandlerResult Character :=
  match store.find? (fun c => c.id == characterId) with
  | none => (store, Except.error (404, "Character not found"))
  | some char =>
    if char.is_personal_character && !(char.owner_id == some userId) then
      (store, Except.error (403, "Not allowed to modify this character."))
    else
      let char' := applyUpdate char upd
      (store.map (fun c => if c.id == characterId then char' else c),
       Except.ok (deserialize_list_fields char'))

/-- `DELETE /characters/{id}` (`delete_character`): 404 when absent; 403
when the row is personal and owned by someone else; otherwise the row is
deleted and the commit succeeds (204, no body). -/
def delete_character (store : List Character) (userId : Nat) (characterId : Nat) :
    List Character × HandlerResult Unit :=
  match store.find? (fun c => c.id == characterId) with
  | none => (store, Except.error (404, "Character not found"))
  | some char =>
    if char.is_personal_character && !(char.owner_id == some userId) then
      (store, Except.error (403, "Not allowed to delete this character."))
    else
      (store.eraseP (fun c => c.id == characterId), Except.ok ())

/-- A `Conversation` row: one user paired with one character. -/
structure Conversation where
  id : Nat
  user_id : Nat
  character_id : Nat
deriving Repr, DecidableEq

/-- A `Message` row (creation order given by list position). -/
structure MessageRec where
  conversation_id : Nat
  role : String
  content : String
deriving Repr, DecidableEq

/-- The stores `send_message` and `start_conversation` write to: the
relational rows (authoritative) and the vector-store embedding records. -/
structure ChatState where
  conversations : List Conversation
  messages : List MessageRec
  embeddings : List StoredEmbedding
deriving Repr, DecidableEq

/-- `POST /chat/start/{character_id}` (`start_conversation`): 404 when the
character does not exist; otherwise unconditionally insert a new
`Conversation(user_id, character_id)` row — there is no lookup of an
existing conversation for the pair — and commit, returning the new row's
id. `nextConvId` is the id the database assigns at flush. -/
def start_conversation (characters : List Character) (st : ChatState)
    (nextConvId : Nat) (userId : Nat) (characterId : Nat) :
    ChatState × HandlerResult Nat :=
  match characters.find? (fun c => c.id == characterId) with
  | none => (st, Except.error (404, "Character not found"))
  | some _ =>
    let conversation : Conversation :=
      { id := nextConvId, user_id := userId, character_id := characterId }
    ({ st with conversations := st.conversations ++ [conversation] },
     Except.ok nextConvId)

/-- `store_message_embedding(conversation_id, message, role)`: append one
embedding record tagged with the conversation id and role. -/
def store_message_embedding (st : ChatState) (conversationId : Nat)
    (message : String) (role : String) : ChatState :=
  { st with embeddings := st.embeddings ++
      [{ conversation_id := conversationId, role := role, content := message }] }

/-- `POST /chat/message/{conversation_id}` (`send_message`). Checks: 404
for a missing conversation, 403 when the caller does not own it, 404 for a
missing character. Then, in order: (1) the user's message row is inserted
and committed in its own `db_transaction` block; (2) its embedding is
stored; (3) relevant context is retrieved (`queryResults` / `peekResults`
are the vector store's answers for this request); (4) the prompt is
assembled and `generate_ai_response` is run against the provider oracle;
if it raises, the exception propagates — the user's row stays committed
and no assistant row exists; (5) on success the assistant's message row is
inserted and committed in its own transaction, then its embedding stored.
Returns the final state and the handler outcome (the AI content on
success). -/
def send_message (characters : List Character) (st : ChatState)
    (userId : Nat) (conversationId : Nat) (messageText : String) (model : String)
    (provider : Nat → AttemptOutcome)
    (queryResults peekResults : List StoredEmbedding) :
    ChatState × HandlerResult String :=
  match st.conversations.find? (fun c => c.id == conversationId) with
  | none => (st, Except.error (404, "Conversation not found"))
  | some conversation =>
    if !(conversation.user_id == userId) then
      (st, Except.error (403, "You do not own this conversation"))
    else
      match characters.find? (fun c => c.id == conversation.character_id) with
      | none => (st, Except.error (404, "Character not found"))
      | some character =>
        let st1 : ChatState := { st with messages := st.messages ++
            [{ conversation_id := conversation.id, role := "user", content := messageText }] }
        let st2 := store_message_embedding st1 conversation.id messageText "user"
        let relevantMessages :=
          retrieveRelevantMessages conversation.id 8 queryResults peekResults
        let openaiMessages := assemblePrompt character relevantMessages messageText
        match generateAIResponse openaiMessages model provider with
        | (AIResult.httpError code detail, _) => (st2, Except.error (code, detail))
        | (AIResult.ok aiContent, _) =>
          let st3 : ChatState := { st2 with messages := st2.messages ++
              [{ conversation_id := conversation.id, role := "assistant", content := aiContent }] }
          let st4 := store_message_embedding st3 conversation.id aiContent "assistant"
          (st4, Except.ok aiContent)

/-! Theorems. -/

/-- C1: in `generate_ai_response`, a transient-provider failure (rate
limit, connectivity, generic API error) is retried up to 3 times with
exponential backoff delays 2s, 4s, 8s. If the first two attempts fail
transiently and the third succeeds, exactly the two backoff delays 2s and
4s occur and the third attempt's content is returned; if four consecutive
attempts fail transiently, a 503 service-unavailable error is raised
after exactly 3 retries with backoff delays 2s, 4s, 8s, a total wait of
2 + 4 + 8 = 14 seconds. -/
theorem generate_ai_response_retry_backoff
    (messages : List OAMessage) (model : String) (provider : Nat → AttemptOutcome)
    (m0 m1 m2 m3 content : String)
    (h0 : provider 0 = AttemptOutcome.transient m0)
    (h1 : provider 1 = AttemptOutcome.transient m1) :
    (provider 2 = AttemptOutcome.success content →
      generateAIResponse messages model provider = (AIResult.ok content, [2, 4])) ∧
    (provider 2 = AttemptOutcome.transient m2 →
      provider 3 = AttemptOutcome.transient m3 →
      generateAIResponse messages model provider =
        (AIResult.httpError 503
          ("AI provider unavailable after multiple attempts: " ++ m3), [2, 4, 8]) ∧
      (generateAIResponse messages model provider).2.sum = 14) := by
  constructor
  · intro h2
    simp [generateAIResponse, generateAIResponseGo, h0, h1, h2, maxRetries, baseWaitTime]
  · intro h2 h3
    simp [generateAIResponse, generateAIResponseGo, h0, h1, h2, h3, maxRetries, baseWaitTime]

/-- Witness for C1: concrete providers realizing both scenarios. -/
theorem generate_ai_response_retry_backoff_witness :
    generateAIResponse [] "gpt-4o"
      (fun i => if i == 0 then AttemptOutcome.transient "rate limited"
        else if i == 1 then AttemptOutcome.transient "connection reset"
        else AttemptOutcome.success "All good.") = (AIResult.ok "All good.", [2, 4]) ∧
    generateAIResponse [] "gpt-4o"
      (fun i => AttemptOutcome.transient (toString i)) =
      (AIResult.httpError 503
        ("AI provider unavailable after multiple attempts: " ++ "3"), [2, 4, 8]) :=
  ⟨(generate_ai_response_retry_backoff [] "gpt-4o" _ "rate limited" "connection reset"
      "x" "x" "All good." rfl rfl).1 rfl,
   ((generate_ai_response_retry_backoff [] "gpt-4o" _ "0" "1" "2" "3" "x"
      rfl rfl).2 rfl rfl).1⟩

/-- C5: a malformed-request failure (`openai.BadRequestError`) never
triggers a retry or a backoff delay: on whichever attempt it occurs
(possibly after earlier transient retries), `generate_ai_response` raises
HTTP 400 immediately, with no backoff delay added for that attempt and no
further attempt consulted. -/
theorem generate_ai_response_bad_request_no_retry
    (messages : List OAMessage) (model : String) (provider : Nat → AttemptOutcome)
    (n : Nat) (m : String)
    (hn : n ≤ maxRetries)
    (hprev : ∀ i, i < n → ∃ t, provider i = AttemptOutcome.transient t)
    (hbad : provider n = AttemptOutcome.badRequest m) :
    generateAIResponse messages model provider =
      (AIResult.httpError 400 ("Invalid request to AI provider: " ++ m),
       (List.range n).map (fun i => baseWaitTime * 2 ^ i)) := by
  suffices key : ∀ (fuel rc : Nat) (waits : List Nat),
      rc + fuel = maxRetries + 1 →
      rc ≤ n →
      (∀ i, rc ≤ i → i < n → ∃ t, provider i = AttemptOutcome.transient t) →
      generateAIResponseGo provider fuel rc rc waits =
        (AIResult.httpError 400 ("Invalid request to AI provider: " ++ m),
         waits ++ (List.range (n - rc)).map (fun i => baseWaitTime * 2 ^ (rc + i))) by
    have h := key (maxRetries + 1) 0 [] (by omega) (Nat.zero_le n)
      (fun i _ hi => hprev i hi)
    simpa [generateAIResponse] using h
  intro fuel
  induction fuel with
  | zero =>
    intro rc waits hsum hrc _
    exfalso
    have hax : maxRetries = 3 := rfl
    omega
  | succ f ih =>
    intro rc waits hsum hrc hmid
    rcases Nat.lt_or_ge rc n with hlt | hge
    · obtain ⟨t, ht⟩ := hmid rc le_rfl hlt
      have hax : maxRetries = 3 := rfl
      have hcond : ¬ (maxRetries < rc + 1) := by omega
      have hstep := ih (rc + 1) (waits ++ [baseWaitTime * 2 ^ rc]) (by omega) (by omega)
        (fun i hi1 hi2 => hmid i (by omega) hi2)
      have hrange : (List.range (n - rc)).map (fun i => baseWaitTime * 2 ^ (rc + i)) =
          baseWaitTime * 2 ^ rc ::
            (List.range (n - (rc + 1))).map (fun i => baseWaitTime * 2 ^ (rc + 1 + i)) := by
        have hd : n - rc = (n - (rc + 1)) + 1 := by omega
        rw [hd, List.range_succ_eq_map, List.map_cons, List.map_map]
        refine congrArg₂ _ (by simp) ?_
        refine List.map_congr_left (fun i _ => ?_)
        simp only [Function.comp_apply]
        refine congrArg _ (congrArg _ (by omega))
      rw [generateAIResponseGo, ht]
      simp only [hcond, if_false]
      rw [hstep, hrange]
      simp
    · have heq : rc = n := le_antisymm hrc hge
      subst heq
      rw [generateAIResponseGo, hbad]
      simp

/-- Witness for C5: two transient failures then a bad request — HTTP 400
with only the two earlier backoff delays, on concrete inputs. -/
theorem generate_ai_response_bad_request_no_retry_witness :
    generateAIResponse [] "gpt-4o"
      (fun i => if i == 0 then AttemptOutcome.transient "rate limited"
        else if i == 1 then AttemptOutcome.transient "overloaded"
        else AttemptOutcome.badRequest "bad params") =
      (AIResult.httpError 400 ("Invalid request to AI provider: " ++ "bad params"),
       [2, 4]) := by
  have := generate_ai_response_bad_request_no_retry [] "gpt-4o"
    (fun i => if i == 0 then AttemptOutcome.transient "rate limited"
      else if i == 1 then AttemptOutcome.transient "overloaded"
      else AttemptOutcome.badRequest "bad params") 2 "bad params"
    (by decide)
    (by intro i hi
        interval_cases i
        · exact ⟨"rate limited", rfl⟩
        · exact ⟨"overloaded", rfl⟩)
    rfl
  simpa [baseWaitTime] using this

/-- C2: for every conversation id and query, `retrieve_relevant_messages`
returns at most `top_k` messages, and every returned message is the
role/content projection of a stored embedding whose metadata
`conversation_id` equals the requested conversation — no message of any
other conversation ever appears, although the similarity query (and the
peek fallback) range over the global, non-partitioned index. -/
theorem retrieve_relevant_messages_conversation_scoped
    (conversationId topK : Nat) (queryResults peekResults : List StoredEmbedding) :
    (retrieveRelevantMessages conversationId topK queryResults peekResults).length ≤ topK ∧
    ∀ msg ∈ retrieveRelevantMessages conversationId topK queryResults peekResults,
      ∃ e, (e ∈ queryResults ∨ e ∈ peekResults) ∧
        e.conversation_id = conversationId ∧ msg = toRetrieved e := by
  have gen : ∀ (src : List StoredEmbedding) (msg : OAMessage),
      msg ∈ ((src.filter (fun e => e.conversation_id == conversationId)).map
        toRetrieved).take topK →
      ∃ e, e ∈ src ∧ e.conversation_id = conversationId ∧ msg = toRetrieved e := by
    intro src msg hm
    have hm2 := List.take_subset _ _ hm
    obtain ⟨e, he, rfl⟩ := List.mem_map.mp hm2
    obtain ⟨he1, he2⟩ := List.mem_filter.mp he
    exact ⟨e, he1, by simpa using he2, rfl⟩
  unfold retrieveRelevantMessages
  by_cases hempty :
      ((queryResults.filter (fun e => e.conversation_id == conversationId)).map
        toRetrieved).isEmpty
  · simp only [hempty, if_true]
    exact ⟨List.length_take_le _ _, fun msg hm => (gen peekResults msg hm).imp
      (fun e he => ⟨Or.inr he.1, he.2.1, he.2.2⟩)⟩
  · simp only [hempty, if_false, Bool.false_eq_true]
    exact ⟨List.length_take_le _ _, fun msg hm => (gen queryResults msg hm).imp
      (fun e he => ⟨Or.inl he.1, he.2.1, he.2.2⟩)⟩

/-- C3: when no entry of the similarity query's answer matches the
requested conversation id, `retrieve_relevant_messages` returns the peeked
recent embeddings filtered to the same conversation id, truncated to
`top_k`; in particular the fallback result is again at most `top_k`
messages, all from the same conversation. -/
theorem retrieve_relevant_messages_fallback
    (conversationId topK : Nat) (queryResults peekResults : List StoredEmbedding)
    (hzero : queryResults.filter (fun e => e.conversation_id == conversationId) = []) :
    retrieveRelevantMessages conversationId topK queryResults peekResults =
      ((peekResults.filter (fun e => e.conversation_id == conversationId)).map
        toRetrieved).take topK ∧
    (retrieveRelevantMessages conversationId topK queryResults peekResults).length ≤ topK := by
  constructor
  · simp [retrieveRelevantMessages, hzero]
  · exact (retrieve_relevant_messages_conversation_scoped conversationId topK
      queryResults peekResults).1

/-- Witness for C3: a query answer whose only entry belongs to another
conversation triggers the fallback, which returns the peeked entries of
the requested conversation, truncated to `top_k = 2`. -/
theorem retrieve_relevant_messages_fallback_witness :
    retrieveRelevantMessages 1 2
      [{ conversation_id := 2, role := "user", content := "other" }]
      [{ conversation_id := 1, role := "user", content := "hi" },
       { conversation_id := 2, role := "user", content := "noise" },
       { conversation_id := 1, role := "assistant", content := "hello" },
       { conversation_id := 1, role := "user", content := "extra" }] =
      [{ role := "user", content := "hi" }, { role := "assistant", content := "hello" }] := by
  have h := (retrieve_relevant_messages_fallback 1 2
    [{ conversation_id := 2, role := "user", content := "other" }]
    [{ conversation_id := 1, role := "user", content := "hi" },
     { conversation_id := 2, role := "user", content := "noise" },
     { conversation_id := 1, role := "assistant", content := "hello" },
     { conversation_id := 1, role := "user", content := "extra" }] (by decide)).1
  rw [h]
  decide

/-- C4 counterexample: `start_conversation` does not find an existing
conversation for the (user, character) pair. For a store that already
holds the conversation of user 7 with character 1, a further
`start_conversation` call by user 7 for character 1 creates a second
conversation for the same pair, so the claimed "find the existing
conversation, create only if absent, at most one conversation per pair
under sequential calls" is false. -/
theorem start_conversation_duplicate_pair_counterexample :
    ((start_conversation
      [{ id := 1, name := "Ada", nationality := none, profession := none,
         description := none, image_url := none, background := none,
         personality_traits := ListFieldVal.null, motivations := none,
         quirks_habits := ListFieldVal.null, example_sentences := ListFieldVal.null,
         is_personal_character := false, owner_id := none }]
      { conversations := [{ id := 5, user_id := 7, character_id := 1 }],
        messages := [], embeddings := [] }
      6 7 1).1.conversations.countP
        (fun cv => cv.user_id == 7 && cv.character_id == 1)) = 2 := by decide

/-- C4 amended: `start_conversation` performs no lookup of an existing
conversation. Whenever the character exists it unconditionally inserts a
fresh conversation row for (user, character) and returns its id (404 when
the character is absent); repeated sequential calls therefore accumulate
one conversation per call for the same pair. -/
theorem start_conversation_always_creates
    (characters : List Character) (st : ChatState)
    (nextConvId userId characterId : Nat)
    (hfound : ∃ c ∈ characters, c.id = characterId) :
    start_conversation characters st nextConvId userId characterId =
      ({ st with conversations := st.conversations ++
          [{ id := nextConvId, user_id := userId, character_id := characterId }] },
       Except.ok nextConvId) := by
  obtain ⟨c, hc, hid⟩ := hfound
  unfold start_conversation
  cases hfind : characters.find? (fun c => c.id == characterId) with
  | none =>
    exfalso
    have := List.find?_eq_none.mp hfind c hc
    simp [hid] at this
  | some c2 => rfl

/-- Witness for C4's amended statement: a second call for the same pair
appends a second conversation row. -/
theorem start_conversation_always_creates_witness :
    start_conversation
      [{ id := 1, name := "Ada", nationality := none, profession := none,
         description := none, image_url := none, background := none,
         personality_traits := ListFieldVal.null, motivations := none,
         quirks_habits := ListFieldVal.null, example_sentences := ListFieldVal.null,
         is_personal_character := false, owner_id := none }]
      { conversations := [{ id := 5, user_id := 7, character_id := 1 }],
        messages := [], embeddings := [] }
      6 7 1 =
      ({ conversations := [{ id := 5, user_id := 7, character_id := 1 },
          { id := 6, user_id := 7, character_id := 1 }],
         messages := [], embeddings := [] },
       Except.ok 6) := by
  have h := start_conversation_always_creates
    [{ id := 1, name := "Ada", nationality := none, profession := none,
       description := none, image_url := none, background := none,
       personality_traits := ListFieldVal.null, motivations := none,
       quirks_habits := ListFieldVal.null, example_sentences := ListFieldVal.null,
       is_personal_character := false, owner_id := none }]
    { conversations := [{ id := 5, user_id := 7, character_id := 1 }],
      messages := [], embeddings := [] }
    6 7 1 ⟨_, List.mem_singleton.mpr rfl, rfl⟩
  rw [h]
  rfl

/-- C7: the message list assembled by `send_message` for the language
model (`assemblePrompt`, built from `build_character_system_message` and
the retrieved context exactly as in lines 301-304 of `chat.py`) starts
with exactly one system message whose text is a pure function of the
character's attributes (identical attributes give identical text, absent
optional fields are omitted by the builder's truthiness guards), followed
by the retrieved context messages unchanged and in order, followed last by
the new user message. -/
theorem send_message_prompt_structure
    (character : Character) (relevantMessages : List OAMessage) (userText : String)
    (hroles : ∀ m ∈ relevantMessages, m.role ≠ "system") :
    (assemblePrompt character relevantMessages userText).head? =
      some { role := "system", content := buildCharacterSystemMessage character } ∧
    ((assemblePrompt character relevantMessages userText).drop 1).take
      relevantMessages.length = relevantMessages ∧
    (assemblePrompt character relevantMessages userText).getLast? =
      some { role := "user", content := userText } ∧
    (assemblePrompt character relevantMessages userText).length =
      relevantMessages.length + 2 ∧
    ((assemblePrompt character relevantMessages userText).filter
      (fun m => m.role == "system")).length = 1 ∧
    (∀ character2 : Character, character = character2 →
      buildCharacterSystemMessage character = buildCharacterSystemMessage character2) := by
  have hfilter : relevantMessages.filter (fun m => m.role == "system") = [] := by
    rw [List.filter_eq_nil_iff]
    intro m hm
    simpa using hroles m hm
  refine ⟨?_, ?_, ?_, ?_, ?_, ?_⟩
  · simp [assemblePrompt]
  · simp [assemblePrompt, List.take_left]
  · have hsplit : assemblePrompt character relevantMessages userText =
        ({ role := "system", content := buildCharacterSystemMessage character } ::
          relevantMessages) ++ [{ role := "user", content := userText }] := by
      simp [assemblePrompt]
    rw [hsplit, List.getLast?_concat]
  · simp [assemblePrompt]
  · simp [assemblePrompt, List.filter_append, hfilter]
  · intro character2 h
    rw [h]

/-- Witness for C7: a concrete prompt over two context messages. -/
theorem send_message_prompt_structure_witness :
    (assemblePrompt
      { id := 1, name := "Ada", nationality := some "British", profession := none,
        description := none, image_url := none, background := none,
        personality_traits := ListFieldVal.null, motivations := none,
        quirks_habits := ListFieldVal.null, example_sentences := ListFieldVal.null,
        is_personal_character := false, owner_id := none }
      [{ role := "user", content := "hi" }, { role := "assistant", content := "hello" }]
      "how are you?").length = 4 ∧
    ((assemblePrompt
      { id := 1, name := "Ada", nationality := some "British", profession := none,
        description := none, image_url := none, background := none,
        personality_traits := ListFieldVal.null, motivations := none,
        quirks_habits := ListFieldVal.null, example_sentences := ListFieldVal.null,
        is_personal_character := false, owner_id := none }
      [{ role := "user", content := "hi" }, { role := "assistant", content := "hello" }]
      "how are you?").drop 1).take 2 =
      [{ role := "user", content := "hi" }, { role := "assistant", content := "hello" }] := by
  have h := send_message_prompt_structure
    { id := 1, name := "Ada", nationality := some "British", profession := none,
      description := none, image_url := none, background := none,
      personality_traits := ListFieldVal.null, motivations := none,
      quirks_habits := ListFieldVal.null, example_sentences := ListFieldVal.null,
      is_personal_character := false, owner_id := none }
    [{ role := "user", content := "hi" }, { role := "assistant", content := "hello" }]
    "how are you?" (by decide)
  exact ⟨h.2.2.2.1, h.2.1⟩

/-- C6: `send_message` persists the user's message and the assistant's
reply individually, each inside its own committed transaction, in that
order. If the AI completion call fails after its retries (an
`HTTPException` propagates out of `generate_ai_response`), the final state
holds the user's message row (and its embedding) with no assistant row at
all; if the call succeeds, the final state holds the user row followed by
the assistant row. -/
theorem send_message_transaction_boundaries
    (characters : List Character) (st : ChatState)
    (userId conversationId : Nat) (messageText model : String)
    (provider : Nat → AttemptOutcome)
    (queryResults peekResults : List StoredEmbedding)
    (conversation : Conversation) (character : Character)
    (hconv : st.conversations.find? (fun c => c.id == conversationId) = some conversation)
    (howner : conversation.user_id = userId)
    (hchar : characters.find? (fun c => c.id == conversation.character_id) = some character) :
    (∀ code detail waits,
      generateAIResponse
        (assemblePrompt character
          (retrieveRelevantMessages conversation.id 8 queryResults peekResults) messageText)
        model provider = (AIResult.httpError code detail, waits) →
      send_message characters st userId conversationId messageText model provider
          queryResults peekResults =
        ({ st with
            messages := st.messages ++
              [{ conversation_id := conversation.id, role := "user", content := messageText }],
            embeddings := st.embeddings ++
              [{ conversation_id := conversation.id, role := "user", content := messageText }] },
         Except.error (code, detail))) ∧
    (∀ content waits,
      generateAIResponse
        (assemblePrompt character
          (retrieveRelevantMessages conversation.id 8 queryResults peekResults) messageText)
        model provider = (AIResult.ok content, waits) →
      send_message characters st userId conversationId messageText model provider
          queryResults peekResults =
        ({ st with
            messages := st.messages ++
              [{ conversation_id := conversation.id, role := "user", content := messageText },
               { conversation_id := conversation.id, role := "assistant", content := content }],
            embeddings := st.embeddings ++
              [{ conversation_id := conversation.id, role := "user", content := messageText },
               { conversation_id := conversation.id, role := "assistant", content := content }] },
         Except.ok content)) := by
  constructor
  · intro code detail waits hai
    simp only [send_message, hconv, howner, beq_self_eq_true, Bool.not_true,
      Bool.false_eq_true, if_false, hchar, store_message_embedding, hai]
  · intro content waits hai
    simp only [send_message, hconv, howner, beq_self_eq_true, Bool.not_true,
      Bool.false_eq_true, if_false, hchar, store_message_embedding, hai]
    simp

/-- Witness for C6: with an always-failing provider the user's message is
the only row added and the handler surfaces the 503; the assistant path is
exercised by a succeeding provider. -/
theorem send_message_transaction_boundaries_witness :
    send_message
      [{ id := 1, name := "Ada", nationality := none, profession := none,
         description := none, image_url := none, background := none,
         personality_traits := ListFieldVal.null, motivations := none,
         quirks_habits := ListFieldVal.null, example_sentences := ListFieldVal.null,
         is_personal_character := false, owner_id := none }]
      { conversations := [{ id := 5, user_id := 7, character_id := 1 }],
        messages := [], embeddings := [] }
      7 5 "hi there" "gpt-4o" (fun _ => AttemptOutcome.other "boom") [] [] =
      ({ conversations := [{ id := 5, user_id := 7, character_id := 1 }],
         messages := [{ conversation_id := 5, role := "user", content := "hi there" }],
         embeddings := [{ conversation_id := 5, role := "user", content := "hi there" }] },
       Except.error (503, "Error communicating with AI provider: " ++ "boom")) := by
  have h := (send_message_transaction_boundaries
    [{ id := 1, name := "Ada", nationality := none, profession := none,
       description := none, image_url := none, background := none,
       personality_traits := ListFieldVal.null, motivations := none,
       quirks_habits := ListFieldVal.null, example_sentences := ListFieldVal.null,
       is_personal_character := false, owner_id := none }]
    { conversations := [{ id := 5, user_id := 7, character_id := 1 }],
      messages := [], embeddings := [] }
    7 5 "hi there" "gpt-4o" (fun _ => AttemptOutcome.other "boom") [] []
    { id := 5, user_id := 7, character_id := 1 }
    { id := 1, name := "Ada", nationality := none, profession := none,
      description := none, image_url := none, background := none,
      personality_traits := ListFieldVal.null, motivations := none,
      quirks_habits := ListFieldVal.null, example_sentences := ListFieldVal.null,
      is_personal_character := false, owner_id := none }
    rfl rfl rfl).1 503 ("Error communicating with AI provider: " ++ "boom") [] rfl
  rw [h]
  rfl

/-- C8 counterexample: the ownership check guards only personal
characters. For a store holding one public (non-personal) character owned
by user 1, an update and a delete issued by user 2 both succeed — the
update changes the stored name and the delete empties the store — where
the claim says both writes must fail with 403 unless the requester is the
owner. -/
theorem character_public_write_counterexample :
    (update_character
      [{ id := 1, name := "Ada", nationality := none, profession := none,
         description := none, image_url := none, background := none,
         personality_traits := ListFieldVal.null, motivations := none,
         quirks_habits := ListFieldVal.null, example_sentences := ListFieldVal.null,
         is_personal_character := false, owner_id := some 1 }]
      2 1 { name := some "Hijacked" }).1 =
      [{ id := 1, name := "Hijacked", nationality := none, profession := none,
         description := none, image_url := none, background := none,
         personality_traits := ListFieldVal.null, motivations := none,
         quirks_habits := ListFieldVal.null, example_sentences := ListFieldVal.null,
         is_personal_character := false, owner_id := some 1 }] ∧
    (delete_character
      [{ id := 1, name := "Ada", nationality := none, profession := none,
         description := none, image_url := none, background := none,
         personality_traits := ListFieldVal.null, motivations := none,
         quirks_habits := ListFieldVal.null, example_sentences := ListFieldVal.null,
         is_personal_character := false, owner_id := some 1 }]
      2 1) =
      ([], Except.ok ()) := by
  exact ⟨rfl, rfl⟩

/-- C8 amended: update or delete of a personal character owned by a
different user fails with 403 and leaves the store unchanged; any
character (personal or not) is readable by any authenticated user; and a
write to a non-personal (public) character is applied for any
authenticated requester — the code performs no ownership check on
non-personal characters. -/
theorem character_write_ownership_rules
    (store : List Character) (userId characterId : Nat)
    (upd : CharacterUpdatePayload) (char : Character)
    (hfind : store.find? (fun c => c.id == characterId) = some char) :
    (char.is_personal_character = true → char.owner_id ≠ some userId →
      update_character store userId characterId upd =
        (store, Except.error (403, "Not allowed to modify this character.")) ∧
      delete_character store userId characterId =
        (store, Except.error (403, "Not allowed to delete this character."))) ∧
    (char.is_personal_character = false →
      update_character store userId characterId upd =
        (store.map (fun c => if c.id == characterId then applyUpdate char upd else c),
         Except.ok (deserialize_list_fields (applyUpdate char upd))) ∧
      delete_character store userId characterId =
        (store.eraseP (fun c => c.id == characterId), Except.ok ())) ∧
    get_character store characterId = Except.ok (deserialize_list_fields char) := by
  refine ⟨?_, ?_, ?_⟩
  · intro hpers howner
    have hbeq : (char.owner_id == some userId) = false := by
      simpa using howner
    constructor
    · simp [update_character, hfind, hpers, hbeq]
    · simp [delete_character, hfind, hpers, hbeq]
  · intro hpub
    constructor
    · simp [update_character, hfind, hpub]
    · simp [delete_character, hfind, hpub]
  · simp [get_character, hfind]

/-- Witness for C8's amended statement: user 2 cannot touch user 1's
personal character (403, store unchanged) but can read it, and can update
user 1's public character. -/
theorem character_write_ownership_rules_witness :
    update_character
      [{ id := 3, name := "Mine", nationality := none, profession := none,
         description := none, image_url := none, background := none,
         personality_traits := ListFieldVal.null, motivations := none,
         quirks_habits := ListFieldVal.null, example_sentences := ListFieldVal.null,
         is_personal_character := true, owner_id := some 1 }]
      2 3 { name := some "Taken" } =
      ([{ id := 3, name := "Mine", nationality := none, profession := none,
          description := none, image_url := none, background := none,
          personality_traits := ListFieldVal.null, motivations := none,
          quirks_habits := ListFieldVal.null, example_sentences := ListFieldVal.null,
          is_personal_character := true, owner_id := some 1 }],
       Except.error (403, "Not allowed to modify this character.")) ∧
    delete_character
      [{ id := 3, name := "Mine", nationality := none, profession := none,
         description := none, image_url := none, background := none,
         personality_traits := ListFieldVal.null, motivations := none,
         quirks_habits := ListFieldVal.null, example_sentences := ListFieldVal.null,
         is_personal_character := true, owner_id := some 1 }]
      2 3 =
      ([{ id := 3, name := "Mine", nationality := none, profession := none,
          description := none, image_url := none, background := none,
          personality_traits := ListFieldVal.null, motivations := none,
          quirks_habits := ListFieldVal.null, example_sentences := ListFieldVal.null,
          is_personal_character := true, owner_id := some 1 }],
       Except.error (403, "Not allowed to delete this character.")) := by
  have h := (character_write_ownership_rules
    [{ id := 3, name := "Mine", nationality := none, profession := none,
       description := none, image_url := none, background := none,
       personality_traits := ListFieldVal.null, motivations := none,
       quirks_habits := ListFieldVal.null, example_sentences := ListFieldVal.null,
       is_personal_character := true, owner_id := some 1 }]
    2 3 { name := some "Taken" }
    { id := 3, name := "Mine", nationality := none, profession := none,
      description := none, image_url := none, background := none,
      personality_traits := ListFieldVal.null, motivations := none,
      quirks_habits := ListFieldVal.null, example_sentences := ListFieldVal.null,
      is_personal_character := true, owner_id := some 1 }
    rfl).1 rfl (by decide)
  exact h

/-- C10 (implicit): `GET /characters/` returns exactly the deserialized
rows satisfying `is_personal_character == False AND owner_id == current
user's id`; consequently every returned character is non-personal and
owned by the requester, so public characters owned by other users and the
requester's own personal characters are both excluded. -/
theorem get_characters_selection (store : List Character) (userId : Nat) :
    (∀ c, c ∈ get_characters store userId ↔
      ∃ r ∈ store, r.is_personal_character = false ∧ r.owner_id = some userId ∧
        c = deserialize_list_fields r) ∧
    (∀ c ∈ get_characters store userId,
      c.is_personal_character = false ∧ c.owner_id = some userId) := by
  have hmem : ∀ c, c ∈ get_characters store userId ↔
      ∃ r ∈ store, r.is_personal_character = false ∧ r.owner_id = some userId ∧
        c = deserialize_list_fields r := by
    intro c
    simp only [get_characters, deserialize_list_fields_many, List.mem_map,
      List.mem_filter, Bool.and_eq_true, beq_iff_eq]
    constructor
    · rintro ⟨r, ⟨hr, hpub, hown⟩, rfl⟩
      exact ⟨r, hr, hpub, hown, rfl⟩
    · rintro ⟨r, hr, hpub, hown, rfl⟩
      exact ⟨r, ⟨hr, hpub, hown⟩, rfl⟩
  refine ⟨hmem, ?_⟩
  intro c hc
  obtain ⟨r, _, hpub, hown, rfl⟩ := (hmem c).mp hc
  exact ⟨hpub, hown⟩

/-- Witness for C10: from a store with a public character of the
requester, a public character of another user and a personal character of
the requester, only the first is returned. -/
theorem get_characters_selection_witness :
    ({ id := 1, name := "PubMine", nationality := none, profession := none,
       description := none, image_url := none, background := none,
       personality_traits := ListFieldVal.null, motivations := none,
       quirks_habits := ListFieldVal.null, example_sentences := ListFieldVal.null,
       is_personal_character := false, owner_id := some 1 } ∈
      get_characters
        [{ id := 1, name := "PubMine", nationality := none, profession := none,
           description := none, image_url := none, background := none,
           personality_traits := ListFieldVal.null, motivations := none,
           quirks_habits := ListFieldVal.null, example_sentences := ListFieldVal.null,
           is_personal_character := false, owner_id := some 1 },
         { id := 2, name := "PubTheirs", nationality := none, profession := none,
           description := none, image_url := none, background := none,
           personality_traits := ListFieldVal.null, motivations := none,
           quirks_habits := ListFieldVal.null, example_sentences := ListFieldVal.null,
           is_personal_character := false, owner_id := some 9 },
         { id := 3, name := "PersMine", nationality := none, profession := none,
           description := none, image_url := none, background := none,
           personality_traits := ListFieldVal.null, motivations := none,
           quirks_habits := ListFieldVal.null, example_sentences := ListFieldVal.null,
           is_personal_character := true, owner_id := some 1 }] 1) ∧
    (get_characters
        [{ id := 1, name := "PubMine", nationality := none, profession := none,
           description := none, image_url := none, background := none,
           personality_traits := ListFieldVal.null, motivations := none,
           quirks_habits := ListFieldVal.null, example_sentences := ListFieldVal.null,
           is_personal_character := false, owner_id := some 1 },
         { id := 2, name := "PubTheirs", nationality := none, profession := none,
           description := none, image_url := none, background := none,
           personality_traits := ListFieldVal.null, motivations := none,
           quirks_habits := ListFieldVal.null, example_sentences := ListFieldVal.null,
           is_personal_character := false, owner_id := some 9 },
         { id := 3, name := "PersMine", nationality := none, profession := none,
           description := none, image_url := none, background := none,
           personality_traits := ListFieldVal.null, motivations := none,
           quirks_habits := ListFieldVal.null, example_sentences := ListFieldVal.null,
           is_personal_character := true, owner_id := some 1 }] 1).length = 1 := by
  constructor
  · exact ((get_characters_selection _ 1).1 _).mpr
      ⟨_, List.mem_cons_self _ _, rfl, rfl, rfl⟩
  · decide

/-! Helper lemmas for the JSON round-trip (C9). -/

/-- Rebuilding a string from its characters is the identity. -/
theorem string_mk_data (s : String) : String.mk s.data = s := rfl

/-- The characters of a rebuilt string. -/
theorem data_string_mk (l : List Char) : (String.mk l).data = l := rfl

/-- Characters with distinct code points are distinct. -/
theorem ne_of_toNat_ne {c d : Char} (h : c.toNat ≠ d.toNat) : c ≠ d :=
  fun hc => h (by rw [hc])

/-- A `Char` is a Unicode scalar value: below the surrogate block or
between it and `0x110000`. -/
theorem char_valid_nat (c : Char) :
    c.toNat < 55296 ∨ (57343 < c.toNat ∧ c.toNat < 1114112) := c.valid

/-- `hexVal` inverts `hexDigitChar` on digit values. -/
theorem hexVal_hexDigitChar : ∀ m, m < 16 → hexVal (hexDigitChar m) = some m := by decide

/-- `hex4` inverts `toHex4`'s digits for values below `0x10000`. -/
theorem hex4_toHex4 (n : Nat) (h : n < 65536) :
    hex4 (hexDigitChar (n / 4096 % 16)) (hexDigitChar (n / 256 % 16))
      (hexDigitChar (n / 16 % 16)) (hexDigitChar (n % 16)) = some n := by
  unfold hex4
  rw [hexVal_hexDigitChar _ (by omega), hexVal_hexDigitChar _ (by omega),
    hexVal_hexDigitChar _ (by omega), hexVal_hexDigitChar _ (by omega)]
  simp only [Option.some.injEq]
  omega

/-- `skipSpaces` keeps a list headed by a non-whitespace character. -/
theorem skipSpaces_not_space (c : Char) (h : isJsonSpace c = false) (l : List Char) :
    skipSpaces (c :: l) = c :: l := by
  simp [skipSpaces, h]

/-- `skipSpaces` drops a leading whitespace character. -/
theorem skipSpaces_space (c : Char) (h : isJsonSpace c = true) (l : List Char) :
    skipSpaces (c :: l) = skipSpaces l := by
  simp [skipSpaces, h]

/-- Every character's escape is at least one character long. -/
theorem escapeChar_length_pos (c : Char) : 1 ≤ (escapeChar c).length := by
  unfold escapeChar
  split_ifs <;> simp [toHex4]

/-- The escaped body is at least as long as the original string. -/
theorem encodeStringBody_length_ge (s : List Char) :
    s.length ≤ (encodeStringBody s).length := by
  induction s with
  | nil => simp [encodeStringBody]
  | cons c cs ih =>
    have := escapeChar_length_pos c
    simp only [encodeStringBody, List.length_append, List.length_cons]
    omega

/-- One step of the fueled body parser on a backslash. -/
theorem parseJsonStringBodyFuel_backslash (f : Nat) (l : List Char) :
    parseJsonStringBodyFuel (f + 1) ('\\' :: l) =
      match parseEscape l with
      | none => none
      | some (d, rest2) =>
          (parseJsonStringBodyFuel f rest2).map (fun p => (d :: p.1, p.2)) := by
  simp [parseJsonStringBodyFuel]

/-- `parseEscape` on a `u` dispatches to the unicode-escape decoder. -/
theorem parseEscape_u (l : List Char) : parseEscape ('u' :: l) = parseUnicodeEscape l := by
  simp [parseEscape]

/-- The unicode-escape decoder reassembles a surrogate pair written with
`toHex4` digits. -/
theorem parseUnicodeEscape_surrogate (hi lo : Nat) (tail : List Char)
    (hhi1 : 55296 ≤ hi) (hhi2 : hi < 56320) (hlo1 : 56320 ≤ lo) (hlo2 : lo < 57344) :
    parseUnicodeEscape (toHex4 hi ++ ('\\' :: 'u' :: (toHex4 lo ++ tail))) =
      some (Char.ofNat (65536 + (hi - 55296) * 1024 + (lo - 56320)), tail) := by
  have h1 := hex4_toHex4 hi (by omega)
  have h2 := hex4_toHex4 lo (by omega)
  simp only [toHex4, List.cons_append, List.nil_append]
  simp [parseUnicodeEscape, h1, h2, hhi1, hhi2, hlo1, hlo2]

/-- The fueled string-body parser inverts the `json.dumps` character
escaper when given more fuel than the number of decoded characters. -/
theorem parseJsonStringBodyFuel_encode :
    ∀ (s : List Char) (fuel : Nat) (rest : List Char), s.length < fuel →
      parseJsonStringBodyFuel fuel (encodeStringBody s ++ '"' :: rest) = some (s, rest) := by
  intro s
  induction s with
  | nil =>
    intro fuel rest hfuel
    cases fuel with
    | zero => omega
    | succ f => simp [encodeStringBody, parseJsonStringBodyFuel]
  | cons c cs ih =>
    intro fuel rest hfuel
    cases fuel with
    | zero => omega
    | succ f =>
    have hlen : cs.length < f := by
      simp only [List.length_cons] at hfuel
      omega
    have htail := ih f rest hlen
    by_cases h1 : c = '"'
    · subst h1
      simp [encodeStringBody, escapeChar, parseJsonStringBodyFuel, parseEscape,
        escapeCharInv, htail]
    · by_cases h2 : c = '\\'
      · subst h2
        simp [encodeStringBody, escapeChar, parseJsonStringBodyFuel, parseEscape,
          escapeCharInv, htail]
      · by_cases h3 : c = '\x08'
        · subst h3
          simp [encodeStringBody, escapeChar, parseJsonStringBodyFuel, parseEscape,
            escapeCharInv, htail]
        · by_cases h4 : c = '\x0c'
          · subst h4
            simp [encodeStringBody, escapeChar, parseJsonStringBodyFuel, parseEscape,
              escapeCharInv, htail]
          · by_cases h5 : c = '\n'
            · subst h5
              simp [encodeStringBody, escapeChar, parseJsonStringBodyFuel, parseEscape,
                escapeCharInv, htail]
            · by_cases h6 : c = '\r'
              · subst h6
                simp [encodeStringBody, escapeChar, parseJsonStringBodyFuel, parseEscape,
                  escapeCharInv, htail]
              · by_cases h7 : c = '\t'
                · subst h7
                  simp [encodeStringBody, escapeChar, parseJsonStringBodyFuel, parseEscape,
                    escapeCharInv, htail]
                · by_cases h8 : 32 ≤ c.toNat ∧ c.toNat ≤ 126
                  · have hesc : escapeChar c = [c] := by
                      simp only [escapeChar]
                      rw [if_neg h1, if_neg h2, if_neg h3, if_neg h4, if_neg h5,
                        if_neg h6, if_neg h7, if_pos h8]
                    have hlow : ¬ c.toNat < 32 := by omega
                    simp only [encodeStringBody, hesc, List.cons_append, List.nil_append]
                    simp [parseJsonStringBodyFuel, h1, h2, hlow, htail]
                  · by_cases h9 : c.toNat < 65536
                    · have hvalid := char_valid_nat c
                      have hesc : escapeChar c = '\\' :: 'u' :: toHex4 c.toNat := by
                        simp only [escapeChar]
                        rw [if_neg h1, if_neg h2, if_neg h3, if_neg h4, if_neg h5,
                          if_neg h6, if_neg h7, if_neg h8, if_pos h9]
                      have hnot1 : ¬ (55296 ≤ c.toNat ∧ c.toNat < 56320) := by omega
                      have hnot2 : ¬ (56320 ≤ c.toNat ∧ c.toNat < 57344) := by omega
                      simp only [encodeStringBody, hesc, toHex4, List.cons_append,
                        List.nil_append]
                      simp [parseJsonStringBodyFuel, parseEscape, parseUnicodeEscape,
                        hex4_toHex4 c.toNat h9, hnot1, hnot2, htail]
                    · have hvalid := char_valid_nat c
                      have hbig : 65536 ≤ c.toNat := by omega
                      have hub : c.toNat < 1114112 := by omega
                      have hesc : escapeChar c =
                          ('\\' :: 'u' :: toHex4 (55296 + (c.toNat - 65536) / 1024)) ++
                          ('\\' :: 'u' :: toHex4 (56320 + (c.toNat - 65536) % 1024)) := by
                        simp only [escapeChar]
                        rw [if_neg h1, if_neg h2, if_neg h3, if_neg h4, if_neg h5,
                          if_neg h6, if_neg h7, if_neg h8, if_neg h9]
                      have hchar : Char.ofNat (65536 +
                          (c.toNat - 65536) / 1024 * 1024 +
                          (c.toNat - 65536) % 1024) = c := by
                        rw [show 65536 + (c.toNat - 65536) / 1024 * 1024 +
                            (c.toNat - 65536) % 1024 = c.toNat from by omega,
                          Char.ofNat_toNat]
                      simp only [encodeStringBody, hesc, List.cons_append,
                        List.append_assoc]
                      rw [parseJsonStringBodyFuel_backslash, parseEscape_u,
                        parseUnicodeEscape_surrogate _ _ _ (by omega) (by omega)
                          (by omega) (by omega)]
                      simp [htail, hchar]

/-- The string-body parser inverts the `json.dumps` character escaper:
parsing the escaped body followed by the closing quote returns the
original characters and the remaining input. -/
theorem parseJsonStringBody_encode (s : List Char) (rest : List Char) :
    parseJsonStringBody (encodeStringBody s ++ '"' :: rest) = some (s, rest) := by
  have h := encodeStringBody_length_ge s
  unfold parseJsonStringBody
  refine parseJsonStringBodyFuel_encode s _ rest ?_
  simp only [List.length_append, List.length_cons]
  omega

/-- An encoded item list is at least as long as the number of items. -/
theorem length_le_sepJoin_encode :
    ∀ items : List String,
      items.length ≤ (sepJoin (items.map (fun t => encodeJSONString t.data))).length := by
  intro items
  induction items with
  | nil => simp [sepJoin]
  | cons s ss ih =>
    cases ss with
    | nil => simp [sepJoin, encodeJSONString]
    | cons s2 ss2 =>
      simp only [List.map, List.length_cons] at ih ⊢
      simp only [sepJoin, List.length_append, List.length_cons]
      omega

/-- `parseJsonArrayItems` ignores one leading whitespace character. -/
theorem parseJsonArrayItems_space (fuel : Nat) {c : Char} (hc : isJsonSpace c = true)
    (l : List Char) :
    parseJsonArrayItems fuel (c :: l) = parseJsonArrayItems fuel l := by
  cases fuel with
  | zero => rfl
  | succ f =>
    simp only [parseJsonArrayItems, skipSpaces_space c hc]

/-- The item parser inverts the `", "`-joined encoding of a non-empty
string list followed by the closing bracket, given fuel at least the
number of items. -/
theorem parseJsonArrayItems_encode :
    ∀ (items : List String) (fuel : Nat) (rest : List Char),
      items ≠ [] → items.length ≤ fuel →
      parseJsonArrayItems fuel
        (sepJoin (items.map (fun t => encodeJSONString t.data)) ++ ']' :: rest) =
        some (items.map String.data, rest) := by
  intro items
  induction items with
  | nil => intro fuel rest hne _; exact absurd rfl hne
  | cons s ss ih =>
    intro fuel rest _ hlen
    cases fuel with
    | zero => simp at hlen
    | succ f =>
      cases ss with
      | nil =>
        have hshape : sepJoin ([s].map (fun t => encodeJSONString t.data)) ++ ']' :: rest =
            '"' :: (encodeStringBody s.data ++ '"' :: ']' :: rest) := by
          simp [sepJoin, encodeJSONString]
        rw [hshape]
        simp [parseJsonArrayItems, skipSpaces, isJsonSpace, parseJsonStringBody_encode]
      | cons s2 ss2 =>
        have hshape : sepJoin ((s :: s2 :: ss2).map (fun t => encodeJSONString t.data)) ++
            ']' :: rest =
            '"' :: (encodeStringBody s.data ++ '"' :: ',' :: ' ' ::
              (sepJoin ((s2 :: ss2).map (fun t => encodeJSONString t.data)) ++
                ']' :: rest)) := by
          simp [sepJoin, encodeJSONString]
        rw [hshape]
        have hrec : parseJsonArrayItems f (' ' ::
            (sepJoin ((s2 :: ss2).map (fun t => encodeJSONString t.data)) ++
              ']' :: rest)) = some ((s2 :: ss2).map String.data, rest) := by
          rw [parseJsonArrayItems_space f (by decide)]
          refine ih f rest (by simp) ?_
          simp only [List.length_cons] at hlen ⊢
          omega
        simp only [List.map] at hrec
        simp [parseJsonArrayItems, skipSpaces, isJsonSpace, parseJsonStringBody_encode,
          hrec]

/-- Core round trip: parsing the `json.dumps` encoding of a list of
strings returns the original list. -/
theorem jsonParseStringArray_serialize (l : List String) :
    jsonParseStringArray (serializeStringList l) = some l := by
  cases l with
  | nil => decide
  | cons s ss =>
    have hY : ∃ Y, sepJoin ((s :: ss).map (fun t => encodeJSONString t.data)) =
        '"' :: Y := by
      cases ss with
      | nil =>
        exact ⟨encodeStringBody s.data ++ ['"'], by simp [sepJoin, encodeJSONString]⟩
      | cons s2 ss2 =>
        exact ⟨encodeStringBody s.data ++ '"' :: ',' :: ' ' ::
          sepJoin ((s2 :: ss2).map (fun t => encodeJSONString t.data)),
          by simp [sepJoin, encodeJSONString]⟩
    obtain ⟨Y, hY⟩ := hY
    simp only [serializeStringList, jsonParseStringArray, data_string_mk,
      List.cons_append]
    rw [skipSpaces_not_space '[' (by decide)]
    generalize hn : ('[' ::
      (sepJoin ((s :: ss).map (fun t => encodeJSONString t.data)) ++ [']'])).length + 1 = n
    have hitems := parseJsonArrayItems_encode (s :: ss) n [] (by simp)
      (by
        have := length_le_sepJoin_encode (s :: ss)
        simp only [List.length_cons, List.length_append] at hn
        simp only [List.length_cons] at this ⊢
        omega)
    rw [hY] at hitems
    rw [hY]
    simp only [List.cons_append] at hitems ⊢
    simp [skipSpaces, isJsonSpace, hitems, List.map_map, string_mk_data, Function.comp]
    rw [show ((fun cs => String.mk cs) ∘ String.data) = id from rfl, List.map_id]

/-- C9: for every list of strings assigned to a list-valued character
field, serializing it for storage (`serialize_list_fields`, i.e.
`json.dumps` of the list) and then deserializing the stored text
(`deserialize_list_fields`, i.e. `json.loads`) reproduces the original
ordered list exactly: the parse of the serialization is the original
list, the field-level deserializer turns the stored text into exactly
the original list, and a character whose three list-valued columns hold
serialized lists deserializes to one holding exactly the original
lists. -/
theorem list_fields_round_trip (l1 l2 l3 : List String) (char : Character) :
    jsonParseStringArray (serializeStringList l1) = some l1 ∧
    deserializeField (ListFieldVal.raw (serializeStringList l1)) =
      ListFieldVal.parsed l1 ∧
    deserialize_list_fields { char with
        personality_traits := ListFieldVal.raw (serializeStringList l1),
        quirks_habits := ListFieldVal.raw (serializeStringList l2),
        example_sentences := ListFieldVal.raw (serializeStringList l3) } =
      { char with
        personality_traits := ListFieldVal.parsed l1,
        quirks_habits := ListFieldVal.parsed l2,
        example_sentences := ListFieldVal.parsed l3 } := by
  have hne : ∀ l : List String, (serializeStringList l).isEmpty = false := by
    intro l
    rw [Bool.eq_false_iff]
    intro hcontra
    have := (String.isEmpty_iff _).mp hcontra
    have hdata := congrArg String.data this
    simp [serializeStringList, data_string_mk] at hdata
  have hfield : ∀ l : List String,
      deserializeField (ListFieldVal.raw (serializeStringList l)) =
        ListFieldVal.parsed l := by
    intro l
    simp [deserializeField, hne l, jsonParseStringArray_serialize l]
  refine ⟨jsonParseStringArray_serialize l1, hfield l1, ?_⟩
  simp [deserialize_list_fields, hfield]

end AIChat
